import Mathlib

/-!
Shallow embedding of the Ghost object-store storage adapter
(`index.js`, class `ObjectStoreStorage`).

The adapter translates six storage operations (save, saveRaw, exists,
delete, read, serve) into S3-compatible client calls.  The S3 client's
`send` is modelled as an explicit function argument mapping the issued
command to the remote outcome (`Except S3Error _`), exactly as the test
suite mocks it.  Collaborator methods inherited from the storage base
class (`getTargetDir`, `getUniqueFileName`) live outside this repository
and are modelled as already-resolved string arguments.

JavaScript values that the code tests for truthiness (`file.contents`,
short-circuit `||`) are modelled by `JsVal` with its JS truthiness.
Byte buffers are `List Nat`; a body stream is the list of chunks it
yields, in order (`for await` drains them in order, `Buffer.concat`
joins them).
-/

/-- A JavaScript value as used by the adapter: a string, a byte buffer,
or `undefined` (an absent field).  Only the truthiness and identity of
these values matter to the code under study. -/
inductive JsVal where
  | str : String → JsVal
  | buf : List Nat → JsVal
  | undef : JsVal
deriving DecidableEq, Repr

/-- JS truthiness for the values above: a string is truthy iff non-empty,
a Buffer object is always truthy, `undefined` is falsy. -/
def JsVal.truthy : JsVal → Bool
  | .str s => s ≠ ""
  | .buf _ => true
  | .undef => false

/-- JavaScript short-circuit `a || b`. -/
def jsOr (a b : JsVal) : JsVal := if a.truthy then a else b

/-- Adapter configuration stored by the constructor (`this.*`). -/
structure Config where
  endpoint : String
  accessKey : String
  secretKey : String
  bucket : String
  region : String
  useSSL : Bool
  storagePath : String
  staticFileURLPrefix : String
deriving DecidableEq, Repr

/-- An error produced by the S3 client: the fields the adapter inspects
(`error.name`, `error.statusCode`) plus `error.message`. -/
structure S3Error where
  name : String
  statusCode : Option Nat
  message : String
deriving DecidableEq, Repr

/-- A plain `new Error(message)` thrown by the adapter itself. -/
structure JsError where
  message : String
deriving DecidableEq, Repr

/-- A byte chunk yielded by a response body stream. -/
abbrev Chunk := List Nat

/-- `PutObjectCommand` input: `ContentType` is `none` when the source
constructs the command without that field. -/
structure PutObjectCommand where
  Bucket : String
  Key : String
  Body : JsVal
  ContentType : Option String
deriving DecidableEq, Repr

/-- `GetObjectCommand` input. -/
structure GetObjectCommand where
  Bucket : String
  Key : String
deriving DecidableEq, Repr

/-- `HeadObjectCommand` input. -/
structure HeadObjectCommand where
  Bucket : String
  Key : String
deriving DecidableEq, Repr

/-- A `GetObject` response as consumed by `serve`: `Body` is the chunk
stream when present, `LastModified` is the `Date` value as epoch
milliseconds. -/
structure GetObjectResponse where
  Body : Option (List Chunk)
  ContentType : Option String
  ETag : Option String
  LastModified : Option Nat
deriving DecidableEq, Repr

/-- The descriptor passed to `read` (`options.path`). -/
structure ReadOptions where
  path : String
deriving DecidableEq, Repr

/-- `fileName.replace(/\\/g, '/')`: every backslash becomes a forward
slash, all other characters are unchanged. -/
def normalizeKey (s : String) : String :=
  String.mk (s.data.map fun c => if c = '\\' then '/' else c)

/-- The `PutObjectCommand` built by `save`: bucket, the normalized unique
file name as key, `file.contents || file.path` as body, `file.type` as
content type.  `fileName` is the value returned by the base class's
`getUniqueFileName(file, storagePath)` collaborator. -/
structure FileDesc where
  contents : JsVal
  type : Option String
  path : String
deriving DecidableEq, Repr

def savePut (cfg : Config) (file : FileDesc) (fileName : String) : PutObjectCommand :=
  { Bucket := cfg.bucket
    Key := normalizeKey fileName
    Body := jsOr file.contents (JsVal.str file.path)
    ContentType := file.type }

/-- `save(file, targetDir)` after the unique file name has been resolved:
issues the put command; on success returns `/` + objectKey, on failure
throws a wrapped error. -/
def saveFn (cfg : Config) (file : FileDesc) (fileName : String)
    (send : PutObjectCommand → Except S3Error Unit) : Except JsError String :=
  match send (savePut cfg file fileName) with
  | .ok _ => .ok ("/" ++ normalizeKey fileName)
  | .error e => .error ⟨"Failed to save file to Object Store: " ++ e.message⟩

/-- The `PutObjectCommand` built by `saveRaw`: key is the static file URL
prefix concatenated with the normalized target path; the source builds
the command without a `ContentType` field. -/
def saveRawPut (cfg : Config) (buffer : List Nat) (targetPath : String) : PutObjectCommand :=
  { Bucket := cfg.bucket
    Key := cfg.staticFileURLPrefix ++ normalizeKey targetPath
    Body := JsVal.buf buffer
    ContentType := none }

/-- `saveRaw(buffer, targetPath)`. -/
def saveRawFn (cfg : Config) (buffer : List Nat) (targetPath : String)
    (send : PutObjectCommand → Except S3Error Unit) : Except JsError String :=
  match send (saveRawPut cfg buffer targetPath) with
  | .ok _ => .ok ("/" ++ (cfg.staticFileURLPrefix ++ normalizeKey targetPath))
  | .error e => .error ⟨"Failed to save buffer to Object Store: " ++ e.message⟩

/-- ``(targetDir ? `${targetDir}/` : '') + fileName``: a string
`targetDir` is truthy iff non-empty. -/
def dirKey (fileName targetDir : String) : String :=
  (if targetDir = "" then "" else targetDir ++ "/") ++ fileName

/-- `exists(fileName, targetDir)`: head the object; `true` on success,
`false` when the failure's name is `'NotFound'`, otherwise the original
error object is rethrown unchanged. -/
def existsFn (cfg : Config) (fileName targetDir : String)
    (send : HeadObjectCommand → Except S3Error Unit) : Except S3Error Bool :=
  match send { Bucket := cfg.bucket, Key := dirKey fileName targetDir } with
  | .ok _ => .ok true
  | .error e => if e.name = "NotFound" then .ok false else .error e

/-- `read(options)`: get the object at `options.path` and drain the body
stream.  The code only uses `response.Body`, so the success payload is
modelled as the list of chunks the stream yields; `Buffer.concat` of the
collected chunks is their concatenation.  A `'NoSuchKey'` failure throws
`File not found: <path>`; any other failure is wrapped. -/
def readFn (cfg : Config) (options : ReadOptions)
    (send : GetObjectCommand → Except S3Error (List Chunk)) : Except JsError (List Nat) :=
  match send { Bucket := cfg.bucket, Key := options.path } with
  | .ok chunks => .ok chunks.flatten
  | .error e =>
      if e.name = "NoSuchKey" then .error ⟨"File not found: " ++ options.path⟩
      else .error ⟨"Failed to read file from Object Store: " ++ e.message⟩

/-- A value set as a response header.  `utcString d` stands for
`new Date(d).toUTCString()` applied to the `LastModified` date `d`
(epoch milliseconds): the HTTP-date formatting itself is kept symbolic,
the constructor records that it is applied. -/
inductive HeaderValue where
  | raw : String → HeaderValue
  | utcString : Nat → HeaderValue
deriving DecidableEq, Repr

/-- One observable effect of the `serve` middleware on `(res, next)`:
`setHeader n v` is `res.set(n, v)`, `status c` is `res.status(c)`,
`send b` is `res.send(b)` (`status` and `send` are recorded separately
because the source chains `res.status(404).send(...)`), `pipe s` is
`body.pipe(res)`, and `callNext e` is `next(e)`. -/
inductive ServeAction where
  | setHeader : String → HeaderValue → ServeAction
  | status : Nat → ServeAction
  | send : String → ServeAction
  | pipe : List Chunk → ServeAction
  | callNext : S3Error → ServeAction
deriving DecidableEq, Repr

/-- The try-block of the middleware after the get succeeded: conditional
metadata headers, the unconditional `Cache-Control`, then either pipe
the body or answer 404. -/
def serveOk (response : GetObjectResponse) : List ServeAction :=
  (match response.ContentType with
   | some ct => [ServeAction.setHeader "Content-Type" (HeaderValue.raw ct)]
   | none => [])
  ++ [ServeAction.setHeader "Cache-Control" (HeaderValue.raw "public, max-age=31536000")]
  ++ (match response.ETag with
      | some tag => [ServeAction.setHeader "ETag" (HeaderValue.raw tag)]
      | none => [])
  ++ (match response.LastModified with
      | some lm => [ServeAction.setHeader "Last-Modified" (HeaderValue.utcString lm)]
      | none => [])
  ++ (match response.Body with
      | some stream => [ServeAction.pipe stream]
      | none => [ServeAction.status 404, ServeAction.send "File not found"])

/-- The catch-block of the middleware: `'NotFound'` name or statusCode
404 answers 404, anything else is passed to `next`. -/
def serveCatch (e : S3Error) : List ServeAction :=
  if e.name = "NotFound" ∨ e.statusCode = some 404 then
    [ServeAction.status 404, ServeAction.send "File not found"]
  else
    [ServeAction.callNext e]

/-- The middleware returned by `serve()`, applied to a request with path
`reqPath`: strips the leading character of the path, prepends the static
file URL prefix, gets that key and reacts as the source does.  The
result is the sequence of effects on the response / next handler. -/
def serveFn (cfg : Config) (reqPath : String)
    (send : GetObjectCommand → Except S3Error GetObjectResponse) : List ServeAction :=
  match send { Bucket := cfg.bucket, Key := cfg.staticFileURLPrefix ++ reqPath.drop 1 } with
  | .ok response => serveOk response
  | .error e => serveCatch e

/-- The `(name, value)` pairs of all `res.set` calls, in order. -/
def headersSet (as : List ServeAction) : List (String × HeaderValue) :=
  as.filterMap fun a => match a with
    | .setHeader n v => some (n, v)
    | _ => none

/-- The values set for one header name, in order. -/
def headerValues (n : String) (as : List ServeAction) : List HeaderValue :=
  as.filterMap fun a => match a with
    | .setHeader m v => if m = n then some v else none
    | _ => none

/-- All status codes written by `res.status`, in order. -/
def statusesSent (as : List ServeAction) : List Nat :=
  as.filterMap fun a => match a with
    | .status c => some c
    | _ => none

/-- All bodies written by `res.send`, in order. -/
def bodiesSent (as : List ServeAction) : List String :=
  as.filterMap fun a => match a with
    | .send b => some b
    | _ => none

/-- All streams piped to the response, in order. -/
def pipedStreams (as : List ServeAction) : List (List Chunk) :=
  as.filterMap fun a => match a with
    | .pipe s => some s
    | _ => none

/-- All errors passed to the next handler, in order. -/
def nextCalls (as : List ServeAction) : List S3Error :=
  as.filterMap fun a => match a with
    | .callNext e => some e
    | _ => none

/-- Concrete configuration used by the test suite. -/
def cfgEx : Config :=
  { endpoint := "localhost:9000"
    accessKey := "test-access-key"
    secretKey := "test-secret-key"
    bucket := "test-bucket"
    region := "us-east-1"
    useSSL := false
    storagePath := "content/media/"
    staticFileURLPrefix := "content/media/" }

/-- An error classified not-found by `exists` and `serve`. -/
def errNotFound : S3Error := { name := "NotFound", statusCode := none, message := "Not Found" }

/-- An error classified not-found by `read`. -/
def errNoSuchKey : S3Error := { name := "NoSuchKey", statusCode := none, message := "File not found" }

/-- A generic internal error, not classified not-found anywhere. -/
def errBoom : S3Error := { name := "Error", statusCode := some 500, message := "Internal error" }

/-- A file descriptor with truthy contents. -/
def fileEx : FileDesc :=
  { contents := JsVal.buf [116, 101, 115, 116]
    type := some "image/jpeg"
    path := "/local/path/to/file.jpg" }

/-- A file descriptor with absent contents. -/
def fileNoContents : FileDesc :=
  { contents := JsVal.undef
    type := some "image/jpeg"
    path := "/local/path/to/file.jpg" }

/-- A get response with every metadata field present and a body stream. -/
def respFull : GetObjectResponse :=
  { Body := some [[104, 105]]
    ContentType := some "image/jpeg"
    ETag := some "\"test-etag\""
    LastModified := some 1761782400000 }

/-- A get response whose `Body` is absent. -/
def respNoBody : GetObjectResponse :=
  { Body := none, ContentType := none, ETag := none, LastModified := none }

/-- A mocked client whose get resolves with `respFull`. -/
def sendFull : GetObjectCommand → Except S3Error GetObjectResponse :=
  fun _ => .ok respFull

/-- A mocked client whose get resolves with `respNoBody`. -/
def sendNoBody : GetObjectCommand → Except S3Error GetObjectResponse :=
  fun _ => .ok respNoBody

/-- A mocked client whose get rejects with `e`. -/
def sendGetErr (e : S3Error) : GetObjectCommand → Except S3Error GetObjectResponse :=
  fun _ => .error e

/-- A mocked client whose head resolves. -/
def sendHeadOk : HeadObjectCommand → Except S3Error Unit :=
  fun _ => .ok ()

/-- A mocked client whose head rejects with `e`. -/
def sendHeadErr (e : S3Error) : HeadObjectCommand → Except S3Error Unit :=
  fun _ => .error e

/-- A mocked client whose put resolves. -/
def sendPutOk : PutObjectCommand → Except S3Error Unit :=
  fun _ => .ok ()

/-- A mocked client whose get yields a three-chunk body stream. -/
def sendChunks : GetObjectCommand → Except S3Error (List Chunk) :=
  fun _ => .ok [[1, 2], [3], [4, 5]]

/-- A mocked client whose get (as drained by `read`) rejects with `e`. -/
def sendReadErr (e : S3Error) : GetObjectCommand → Except S3Error (List Chunk) :=
  fun _ => .error e

/-- When the get resolves, the middleware runs its try-block tail. -/
theorem serveFn_eq_ok (cfg : Config) (reqPath : String)
    (send : GetObjectCommand → Except S3Error GetObjectResponse)
    (response : GetObjectResponse)
    (h : send { Bucket := cfg.bucket, Key := cfg.staticFileURLPrefix ++ reqPath.drop 1 }
      = .ok response) :
    serveFn cfg reqPath send = serveOk response := by
  unfold serveFn
  rw [h]

/-- When the get rejects, the middleware runs its catch-block. -/
theorem serveFn_eq_error (cfg : Config) (reqPath : String)
    (send : GetObjectCommand → Except S3Error GetObjectResponse) (e : S3Error)
    (h : send { Bucket := cfg.bucket, Key := cfg.staticFileURLPrefix ++ reqPath.drop 1 }
      = .error e) :
    serveFn cfg reqPath send = serveCatch e := by
  unfold serveFn
  rw [h]

/-- The generic read wrap message never coincides with the not-found
message, whatever the wrapped message and path are: the two literal
parts already differ at their second character. -/
theorem readWrapMsg_ne (m p : String) :
    ("Failed to read file from Object Store: " ++ m) ≠ "File not found: " ++ p := by
  intro hEq
  have hd : ("Failed to read file from Object Store: ").data ++ m.data
      = ("File not found: ").data ++ p.data := by
    rw [← String.data_append, ← String.data_append, hEq]
  have h1 : (("Failed to read file from Object Store: ").data ++ m.data)[1]? = some 'a' := by
    rw [List.getElem?_append_left (by decide)]
    decide
  have h2 : (("File not found: ").data ++ p.data)[1]? = some 'i' := by
    rw [List.getElem?_append_left (by decide)]
    decide
  rw [hd, h2] at h1
  exact absurd h1 (by decide)

/-- Claim C2: `exists` returns `false` iff the head-object check fails
with the not-found classification (`error.name === 'NotFound'`); it
returns `true` when the check succeeds; any failure not classified
not-found is rethrown as the identical, unwrapped error object. -/
theorem claim_C2 (cfg : Config) (fileName targetDir : String)
    (send : HeadObjectCommand → Except S3Error Unit) :
    (existsFn cfg fileName targetDir send = .ok false ↔
      ∃ e : S3Error,
        send { Bucket := cfg.bucket, Key := dirKey fileName targetDir } = .error e
          ∧ e.name = "NotFound") ∧
    (∀ u : Unit, send { Bucket := cfg.bucket, Key := dirKey fileName targetDir } = .ok u →
      existsFn cfg fileName targetDir send = .ok true) ∧
    (∀ e : S3Error, send { Bucket := cfg.bucket, Key := dirKey fileName targetDir } = .error e →
      e.name ≠ "NotFound" → existsFn cfg fileName targetDir send = .error e) := by
  refine ⟨⟨?_, ?_⟩, ?_, ?_⟩
  · intro h
    unfold existsFn at h
    rcases hs : send { Bucket := cfg.bucket, Key := dirKey fileName targetDir } with e | u
    · rw [hs] at h
      by_cases hn : e.name = "NotFound"
      · exact ⟨e, rfl, hn⟩
      · simp [hn] at h
    · rw [hs] at h; simp at h
  · rintro ⟨e, hs, hn⟩
    unfold existsFn
    rw [hs]
    simp [hn]
  · intro u hs
    unfold existsFn
    rw [hs]
  · intro e hs hn
    unfold existsFn
    rw [hs]
    simp [hn]

/-- Witness for C2 at the test suite's inputs. -/
theorem claim_C2_witness :
    existsFn cfgEx "non-existant-file.jpg" "/images" (sendHeadErr errNotFound) = .ok false ∧
    existsFn cfgEx "test-file.jpg" "/images" sendHeadOk = .ok true ∧
    existsFn cfgEx "test-file.jpg" "/images" (sendHeadErr errBoom) = .error errBoom := by
  refine ⟨?_, ?_, ?_⟩
  · exact (claim_C2 cfgEx "non-existant-file.jpg" "/images" (sendHeadErr errNotFound)).1.mpr
      ⟨errNotFound, rfl, rfl⟩
  · exact (claim_C2 cfgEx "test-file.jpg" "/images" sendHeadOk).2.1 () rfl
  · exact (claim_C2 cfgEx "test-file.jpg" "/images" (sendHeadErr errBoom)).2.2 errBoom rfl
      (by decide)

/-- Claim C3: on a body stream of chunks, `read` returns exactly the
in-order concatenation of the chunks as one buffer, and two reads of
the same chunk sequence return identical bytes. -/
theorem claim_C3 (cfg : Config) (options : ReadOptions)
    (send send' : GetObjectCommand → Except S3Error (List Chunk)) (chunks : List Chunk)
    (h : send { Bucket := cfg.bucket, Key := options.path } = .ok chunks)
    (h' : send' { Bucket := cfg.bucket, Key := options.path } = .ok chunks) :
    readFn cfg options send = .ok chunks.flatten ∧
    readFn cfg options send = readFn cfg options send' := by
  have e1 : readFn cfg options send = .ok chunks.flatten := by
    unfold readFn
    rw [h]
  have e2 : readFn cfg options send' = .ok chunks.flatten := by
    unfold readFn
    rw [h']
  exact ⟨e1, e1.trans e2.symm⟩

/-- Witness for C3 on a three-chunk stream. -/
theorem claim_C3_witness :
    readFn cfgEx ⟨"test-file.jpg"⟩ sendChunks = .ok [1, 2, 3, 4, 5] ∧
    readFn cfgEx ⟨"test-file.jpg"⟩ sendChunks = readFn cfgEx ⟨"test-file.jpg"⟩ sendChunks := by
  have h := claim_C3 cfgEx ⟨"test-file.jpg"⟩ sendChunks sendChunks [[1, 2], [3], [4, 5]] rfl rfl
  exact ⟨h.1.trans rfl, h.2⟩

/-- Claim C4: a read failure named `'NoSuchKey'` throws the not-found
error carrying the originally requested path; any other failure throws
the wrap of the cause's message. -/
theorem claim_C4 (cfg : Config) (options : ReadOptions)
    (send : GetObjectCommand → Except S3Error (List Chunk)) (e : S3Error)
    (h : send { Bucket := cfg.bucket, Key := options.path } = .error e) :
    (e.name = "NoSuchKey" →
      readFn cfg options send = .error ⟨"File not found: " ++ options.path⟩) ∧
    (e.name ≠ "NoSuchKey" →
      readFn cfg options send = .error ⟨"Failed to read file from Object Store: " ++ e.message⟩) := by
  constructor
  · intro hn
    unfold readFn
    rw [h]
    simp [hn]
  · intro hn
    unfold readFn
    rw [h]
    simp [hn]

/-- Witness for C4 on the two failure kinds. -/
theorem claim_C4_witness :
    readFn cfgEx ⟨"non-existant-file.jpg"⟩ (sendReadErr errNoSuchKey)
      = .error ⟨"File not found: non-existant-file.jpg"⟩ ∧
    readFn cfgEx ⟨"test-file.jpg"⟩ (sendReadErr errBoom)
      = .error ⟨"Failed to read file from Object Store: Internal error"⟩ := by
  constructor
  · exact ((claim_C4 cfgEx ⟨"non-existant-file.jpg"⟩ (sendReadErr errNoSuchKey) errNoSuchKey
      rfl).1 rfl).trans rfl
  · exact ((claim_C4 cfgEx ⟨"test-file.jpg"⟩ (sendReadErr errBoom) errBoom rfl).2
      (by decide)).trans rfl

/-- Claim C5: on a successful get with a present body, the middleware
copies Content-Type, ETag and Last-Modified (as an HTTP date) exactly
when each field is present, always sets the one-year public
Cache-Control, and pipes the body stream to the response, writing no
status and no body itself. -/
theorem claim_C5 (cfg : Config) (reqPath : String)
    (send : GetObjectCommand → Except S3Error GetObjectResponse)
    (response : GetObjectResponse) (stream : List Chunk)
    (h : send { Bucket := cfg.bucket, Key := cfg.staticFileURLPrefix ++ reqPath.drop 1 }
      = .ok response)
    (hb : response.Body = some stream) :
    headerValues "Content-Type" (serveFn cfg reqPath send)
      = (response.ContentType.map HeaderValue.raw).toList ∧
    headerValues "Cache-Control" (serveFn cfg reqPath send)
      = [HeaderValue.raw "public, max-age=31536000"] ∧
    headerValues "ETag" (serveFn cfg reqPath send)
      = (response.ETag.map HeaderValue.raw).toList ∧
    headerValues "Last-Modified" (serveFn cfg reqPath send)
      = (response.LastModified.map HeaderValue.utcString).toList ∧
    pipedStreams (serveFn cfg reqPath send) = [stream] ∧
    statusesSent (serveFn cfg reqPath send) = [] ∧
    bodiesSent (serveFn cfg reqPath send) = [] := by
  rw [serveFn_eq_ok cfg reqPath send response h]
  rcases response with ⟨b, ct, et, lm⟩
  obtain rfl : b = some stream := hb
  cases ct <;> cases et <;> cases lm <;> exact ⟨rfl, rfl, rfl, rfl, rfl, rfl, rfl⟩

/-- Witness for C5 at the test suite's full response. -/
theorem claim_C5_witness :
    headerValues "Content-Type" (serveFn cfgEx "/test-file.jpg" sendFull)
      = [HeaderValue.raw "image/jpeg"] ∧
    headerValues "Cache-Control" (serveFn cfgEx "/test-file.jpg" sendFull)
      = [HeaderValue.raw "public, max-age=31536000"] ∧
    headerValues "ETag" (serveFn cfgEx "/test-file.jpg" sendFull)
      = [HeaderValue.raw "\"test-etag\""] ∧
    headerValues "Last-Modified" (serveFn cfgEx "/test-file.jpg" sendFull)
      = [HeaderValue.utcString 1761782400000] ∧
    pipedStreams (serveFn cfgEx "/test-file.jpg" sendFull) = [[[104, 105]]] ∧
    statusesSent (serveFn cfgEx "/test-file.jpg" sendFull) = [] := by
  have h := claim_C5 cfgEx "/test-file.jpg" sendFull respFull [[104, 105]] rfl rfl
  exact ⟨h.1.trans rfl, h.2.1, h.2.2.1.trans rfl, h.2.2.2.1.trans rfl,
    h.2.2.2.2.1, h.2.2.2.2.2.1⟩

/-- Claim C6: a get failure neither named `'NotFound'` nor carrying
status code 404 is passed to the next handler, and the middleware
writes no status and no body itself. -/
theorem claim_C6 (cfg : Config) (reqPath : String)
    (send : GetObjectCommand → Except S3Error GetObjectResponse) (e : S3Error)
    (h : send { Bucket := cfg.bucket, Key := cfg.staticFileURLPrefix ++ reqPath.drop 1 }
      = .error e)
    (hn : e.name ≠ "NotFound") (hs : e.statusCode ≠ some 404) :
    serveFn cfg reqPath send = [ServeAction.callNext e] ∧
    nextCalls (serveFn cfg reqPath send) = [e] ∧
    statusesSent (serveFn cfg reqPath send) = [] ∧
    bodiesSent (serveFn cfg reqPath send) = [] := by
  have hc : serveCatch e = [ServeAction.callNext e] := by
    unfold serveCatch
    rw [if_neg]
    rintro (h1 | h2)
    · exact hn h1
    · exact hs h2
  rw [serveFn_eq_error cfg reqPath send e h, hc]
  exact ⟨rfl, rfl, rfl, rfl⟩

/-- Witness for C6 at the test suite's internal error. -/
theorem claim_C6_witness :
    serveFn cfgEx "/test-file.jpg" (sendGetErr errBoom) = [ServeAction.callNext errBoom] ∧
    statusesSent (serveFn cfgEx "/test-file.jpg" (sendGetErr errBoom)) = [] ∧
    bodiesSent (serveFn cfgEx "/test-file.jpg" (sendGetErr errBoom)) = [] := by
  have h := claim_C6 cfgEx "/test-file.jpg" (sendGetErr errBoom) errBoom rfl
    (by decide) (by decide)
  exact ⟨h.1, h.2.2.1, h.2.2.2⟩

/-- Counterexample to C1 as stated: with a successful get whose `Body`
is absent, the middleware has already set the unconditional
Cache-Control header before answering 404, so "sets no headers on the
response" is false. -/
theorem claim_C1_counterexample :
    respNoBody.Body = none ∧
    statusesSent (serveFn cfgEx "/nonexistent.jpg" sendNoBody) = [404] ∧
    bodiesSent (serveFn cfgEx "/nonexistent.jpg" sendNoBody) = ["File not found"] ∧
    headersSet (serveFn cfgEx "/nonexistent.jpg" sendNoBody)
      = [("Cache-Control", HeaderValue.raw "public, max-age=31536000")] ∧
    headersSet (serveFn cfgEx "/nonexistent.jpg" sendNoBody) ≠ [] := by
  refine ⟨rfl, rfl, rfl, rfl, ?_⟩
  decide

/-- Claim C1 amended: on a successful get with an absent `Body` the
middleware responds 404 with the plain body "File not found", but it
has already set headers: Cache-Control is always set to the one-year
public directive, and Content-Type, ETag and Last-Modified are set
exactly when present in the source response; nothing is piped. -/
theorem claim_C1_amended (cfg : Config) (reqPath : String)
    (send : GetObjectCommand → Except S3Error GetObjectResponse)
    (response : GetObjectResponse)
    (h : send { Bucket := cfg.bucket, Key := cfg.staticFileURLPrefix ++ reqPath.drop 1 }
      = .ok response)
    (hb : response.Body = none) :
    statusesSent (serveFn cfg reqPath send) = [404] ∧
    bodiesSent (serveFn cfg reqPath send) = ["File not found"] ∧
    headerValues "Cache-Control" (serveFn cfg reqPath send)
      = [HeaderValue.raw "public, max-age=31536000"] ∧
    headerValues "Content-Type" (serveFn cfg reqPath send)
      = (response.ContentType.map HeaderValue.raw).toList ∧
    headerValues "ETag" (serveFn cfg reqPath send)
      = (response.ETag.map HeaderValue.raw).toList ∧
    headerValues "Last-Modified" (serveFn cfg reqPath send)
      = (response.LastModified.map HeaderValue.utcString).toList ∧
    pipedStreams (serveFn cfg reqPath send) = [] := by
  rw [serveFn_eq_ok cfg reqPath send response h]
  rcases response with ⟨b, ct, et, lm⟩
  obtain rfl : b = none := hb
  cases ct <;> cases et <;> cases lm <;> exact ⟨rfl, rfl, rfl, rfl, rfl, rfl, rfl⟩

/-- Witness for the amended C1 at the body-less response. -/
theorem claim_C1_amended_witness :
    statusesSent (serveFn cfgEx "/nonexistent.jpg" sendNoBody) = [404] ∧
    bodiesSent (serveFn cfgEx "/nonexistent.jpg" sendNoBody) = ["File not found"] ∧
    headerValues "Cache-Control" (serveFn cfgEx "/nonexistent.jpg" sendNoBody)
      = [HeaderValue.raw "public, max-age=31536000"] := by
  have h := claim_C1_amended cfgEx "/nonexistent.jpg" sendNoBody respNoBody rfl rfl
  exact ⟨h.1, h.2.1, h.2.2.1⟩

/-- Claim C7: when the put succeeds, `save` returns `/` followed by the
object key, the unique file name with every backslash replaced by a
forward slash; the returned URL begins with `/` and contains no
backslash. -/
theorem claim_C7 (cfg : Config) (file : FileDesc) (fileName : String)
    (send : PutObjectCommand → Except S3Error Unit)
    (h : send (savePut cfg file fileName) = .ok ()) :
    saveFn cfg file fileName send = .ok ("/" ++ normalizeKey fileName) ∧
    ("/" ++ normalizeKey fileName).data.head? = some '/' ∧
    '\\' ∉ ("/" ++ normalizeKey fileName).data := by
  have hdata : ("/" ++ normalizeKey fileName).data = '/' :: (normalizeKey fileName).data := by
    rw [String.data_append]
    rfl
  refine ⟨?_, ?_, ?_⟩
  · unfold saveFn
    rw [h]
  · rw [hdata]
    rfl
  · rw [hdata]
    intro hmem
    rcases List.mem_cons.mp hmem with hhd | htl
    · exact absurd hhd (by decide)
    · have : ∀ c ∈ (normalizeKey fileName).data, c ≠ '\\' := by
        intro c hc
        unfold normalizeKey at hc
        rcases List.mem_map.mp hc with ⟨a, _, rfl⟩
        by_cases ha : a = '\\'
        · rw [if_pos ha]
          decide
        · rw [if_neg ha]
          exact ha
      exact this '\\' htl rfl

/-- Witness for C7 on a file name containing backslashes. -/
theorem claim_C7_witness :
    saveFn cfgEx fileEx "2025\\10\\test-file.jpg" sendPutOk = .ok "/2025/10/test-file.jpg" ∧
    '\\' ∉ ("/" ++ normalizeKey "2025\\10\\test-file.jpg").data := by
  have h := claim_C7 cfgEx fileEx "2025\\10\\test-file.jpg" sendPutOk rfl
  exact ⟨h.1.trans rfl, h.2.2⟩

/-- Claim C8: when the put succeeds, `saveRaw` returns
`/` + staticFileURLPrefix + the target path with every backslash
replaced by a forward slash, and the issued put command carries no
explicit content type. -/
theorem claim_C8 (cfg : Config) (buffer : List Nat) (targetPath : String)
    (send : PutObjectCommand → Except S3Error Unit)
    (h : send (saveRawPut cfg buffer targetPath) = .ok ()) :
    saveRawFn cfg buffer targetPath send
      = .ok ("/" ++ cfg.staticFileURLPrefix ++ normalizeKey targetPath) ∧
    (saveRawPut cfg buffer targetPath).ContentType = none := by
  constructor
  · unfold saveRawFn
    rw [h, ← String.append_assoc]
  · rfl

/-- Witness for C8 on a target path containing a backslash. -/
theorem claim_C8_witness :
    saveRawFn cfgEx [1, 2, 3] "a\\b.jpg" sendPutOk = .ok "/content/media/a/b.jpg" ∧
    (saveRawPut cfgEx [1, 2, 3] "a\\b.jpg").ContentType = none := by
  have h := claim_C8 cfgEx [1, 2, 3] "a\\b.jpg" sendPutOk rfl
  exact ⟨h.1.trans rfl, h.2⟩

/-- Claim C9: the body of the put command issued by `save` is the
descriptor's `contents` field when that field is present and truthy,
and otherwise the descriptor's `path` string itself. -/
theorem claim_C9 (cfg : Config) (file : FileDesc) (fileName : String) :
    (file.contents.truthy = true → (savePut cfg file fileName).Body = file.contents) ∧
    (file.contents.truthy = false → (savePut cfg file fileName).Body = JsVal.str file.path) := by
  constructor
  · intro ht
    show jsOr file.contents (JsVal.str file.path) = file.contents
    simp [jsOr, ht]
  · intro ht
    show jsOr file.contents (JsVal.str file.path) = JsVal.str file.path
    simp [jsOr, ht]

/-- Witness for C9 on descriptors with and without contents. -/
theorem claim_C9_witness :
    (savePut cfgEx fileEx "test-file.jpg").Body = JsVal.buf [116, 101, 115, 116] ∧
    (savePut cfgEx fileNoContents "test-file.jpg").Body = JsVal.str "/local/path/to/file.jpg" := by
  constructor
  · exact (claim_C9 cfgEx fileEx "test-file.jpg").1 rfl
  · exact (claim_C9 cfgEx fileNoContents "test-file.jpg").2 rfl

/-- Claim C10: `read` classifies only `'NoSuchKey'` as not-found: a
failure named `'NotFound'` — the classification `exists` and `serve`
accept — is wrapped by `read` as the generic read failure message and
never yields the not-found result carrying the path, while the same
error makes `exists` return `false` and `serve` answer 404. -/
theorem claim_C10 (cfg : Config) (options : ReadOptions)
    (fileName targetDir reqPath : String)
    (sendR : GetObjectCommand → Except S3Error (List Chunk))
    (sendH : HeadObjectCommand → Except S3Error Unit)
    (sendS : GetObjectCommand → Except S3Error GetObjectResponse)
    (e : S3Error)
    (hR : sendR { Bucket := cfg.bucket, Key := options.path } = .error e)
    (hH : sendH { Bucket := cfg.bucket, Key := dirKey fileName targetDir } = .error e)
    (hS : sendS { Bucket := cfg.bucket, Key := cfg.staticFileURLPrefix ++ reqPath.drop 1 }
      = .error e)
    (hn : e.name = "NotFound") :
    readFn cfg options sendR = .error ⟨"Failed to read file from Object Store: " ++ e.message⟩ ∧
    readFn cfg options sendR ≠ .error ⟨"File not found: " ++ options.path⟩ ∧
    existsFn cfg fileName targetDir sendH = .ok false ∧
    serveFn cfg reqPath sendS = [ServeAction.status 404, ServeAction.send "File not found"] := by
  have hnk : e.name ≠ "NoSuchKey" := by
    rw [hn]
    decide
  have r1 : readFn cfg options sendR
      = .error ⟨"Failed to read file from Object Store: " ++ e.message⟩ := by
    unfold readFn
    rw [hR]
    simp [hnk]
  refine ⟨r1, ?_, ?_, ?_⟩
  · rw [r1]
    intro hEq
    have hmsg : ("Failed to read file from Object Store: " ++ e.message)
        = "File not found: " ++ options.path := by
      have := Except.error.inj hEq
      exact congrArg JsError.message this
    exact readWrapMsg_ne e.message options.path hmsg
  · unfold existsFn
    rw [hH]
    simp [hn]
  · rw [serveFn_eq_error cfg reqPath sendS e hS]
    unfold serveCatch
    rw [if_pos (Or.inl hn)]

/-- Witness for C10: the same `'NotFound'` error through all three
operations. -/
theorem claim_C10_witness :
    readFn cfgEx ⟨"x.jpg"⟩ (sendReadErr errNotFound)
      = .error ⟨"Failed to read file from Object Store: Not Found"⟩ ∧
    existsFn cfgEx "x.jpg" "" (sendHeadErr errNotFound) = .ok false ∧
    serveFn cfgEx "/x.jpg" (sendGetErr errNotFound)
      = [ServeAction.status 404, ServeAction.send "File not found"] := by
  have h := claim_C10 cfgEx ⟨"x.jpg"⟩ "x.jpg" "" "/x.jpg" (sendReadErr errNotFound)
    (sendHeadErr errNotFound) (sendGetErr errNotFound) errNotFound rfl rfl rfl rfl
  exact ⟨h.1.trans rfl, h.2.2.1, h.2.2.2⟩
